import Mathlib

/-!
Shallow embedding of the HSE App API client (`src/hse_app_api.py`) together
with the pieces of the Python standard library (`urllib.parse`) and of the
`requests` HTTP library that the client relies on.  Network traffic is
modelled by a `Transport` oracle mapping each outgoing `Request` to the
`Response` the server would return; every operation additionally returns the
ordered trace of the requests it actually issued, so that statements about
"no network I/O" are propositions about that trace.  Python exceptions are
modelled by the `PyError` type and fallible operations return `Except`.
-/

namespace HseApp

/-- Characters that `urllib.parse.quote` never escapes with `safe=""`:
ASCII letters, ASCII digits and the four characters `_.-~`. -/
def alwaysSafeChar (c : Char) : Bool :=
  (decide (65 ≤ c.toNat) && decide (c.toNat ≤ 90)) ||
  (decide (97 ≤ c.toNat) && decide (c.toNat ≤ 122)) ||
  (decide (48 ≤ c.toNat) && decide (c.toNat ≤ 57)) ||
  c == '_' || c == '.' || c == '-' || c == '~'

/-- Upper-case hexadecimal digit, as `urllib.parse.quote` prints escapes. -/
def hexDigitUpper (n : Nat) : Char :=
  if n < 10 then Char.ofNat (48 + n) else Char.ofNat (55 + n)

/-- The `%XX` escape of one byte, as printed by `urllib.parse.quote`. -/
def percentEncodeByteChars (b : Nat) : List Char :=
  ['%', hexDigitUpper (b / 16), hexDigitUpper (b % 16)]

/-- UTF-8 bytes of one code point (arithmetic form of the standard encoding). -/
def utf8Bytes (c : Char) : List Nat :=
  let n := c.toNat
  if n < 128 then [n]
  else if n < 2048 then [192 + n / 64, 128 + n % 64]
  else if n < 65536 then [224 + n / 4096, 128 + (n / 64) % 64, 128 + n % 64]
  else [240 + n / 262144, 128 + (n / 4096) % 64, 128 + (n / 64) % 64, 128 + n % 64]

/-- Concatenation of `f` applied to every element of a list. -/
def listFlat (f : α → List β) : List α → List β
  | [] => []
  | a :: as => f a ++ listFlat f as

/-- `urllib.parse.quote` of a single character with `safe=""`: safe characters
pass through unchanged, every other character becomes the `%XX` escapes of its
UTF-8 bytes. -/
def quote_char_chars (c : Char) : List Char :=
  if alwaysSafeChar c then [c] else listFlat percentEncodeByteChars (utf8Bytes c)

/-- `urllib.parse.quote_plus` with `safe=""`, character-list form: spaces map
to `+`, everything else as in `quote`. -/
def quote_plus_chars (cs : List Char) : List Char :=
  listFlat (fun c => if c == ' ' then ['+'] else quote_char_chars c) cs

/-- `urllib.parse.quote_plus` with `safe=""`, the default quoting used by
`urlencode`. -/
def quote_plus (s : String) : String := ⟨quote_plus_chars s.data⟩

/-- `urllib.parse.urlencode` over an ordered association list (Python dicts
preserve insertion order): `quoted key = quoted value` pairs joined by `&`.
`urlencode` applies `str` to every value, so integer-valued parameters are
stringified by the callers of this model. -/
def urlencode_chars : List (String × String) → List Char
  | [] => []
  | [kv] => quote_plus_chars kv.1.data ++ '=' :: quote_plus_chars kv.2.data
  | kv :: rest =>
    quote_plus_chars kv.1.data ++
      '=' :: (quote_plus_chars kv.2.data ++ '&' :: urlencode_chars rest)

/-- `urllib.parse.urlencode` with default arguments. -/
def urlencode (params : List (String × String)) : String := ⟨urlencode_chars params⟩

/-- `combine_base_url_with_params` from `hse_app_api.py`: `None` parameters
leave the url unchanged, otherwise `url + "?" + urlencode(params)`. -/
def combine_base_url_with_params (url : String)
    (params : Option (List (String × String))) : String :=
  match params with
  | none => url
  | some ps => url ++ "?" ++ urlencode ps

/-- Value of one hexadecimal digit character, upper or lower case. -/
def hexVal (c : Char) : Option Nat :=
  if 48 ≤ c.toNat ∧ c.toNat ≤ 57 then some (c.toNat - 48)
  else if 65 ≤ c.toNat ∧ c.toNat ≤ 70 then some (c.toNat - 55)
  else if 97 ≤ c.toNat ∧ c.toNat ≤ 102 then some (c.toNat - 87)
  else none

/-- Percent-decoding scanner of `urllib.parse.unquote`, one byte per `%XX`
escape and byte-as-character output (this agrees with Python on ASCII data;
Python additionally UTF-8-decodes multi-byte sequences).  An invalid escape
leaves the `%` in place, as Python does.  The first argument is fuel, one
unit per input character, making the recursion structural; every step
consumes at least one character, so fuel never runs out when it starts at
the input length. -/
def unquote_fuel : Nat → List Char → List Char
  | _, [] => []
  | 0, l => l
  | Nat.succ f, '%' :: a :: b :: rest2 =>
    (match hexVal a, hexVal b with
     | some x, some y => Char.ofNat (16 * x + y) :: unquote_fuel f rest2
     | _, _ => '%' :: unquote_fuel f (a :: b :: rest2))
  | Nat.succ f, c :: rest => c :: unquote_fuel f rest

/-- The percent-decoding scanner at full fuel. -/
def unquote_list (cs : List Char) : List Char := unquote_fuel cs.length cs

/-- `urllib.parse.unquote_plus`: `+` becomes a space, then percent-decoding. -/
def unquote_plus (s : String) : String :=
  ⟨unquote_list (s.data.map (fun c => if c == '+' then ' ' else c))⟩

/-- Split a character list at the first occurrence of `sep`; `none` when the
separator does not occur. -/
def splitFirst (sep : Char) : List Char → Option (List Char × List Char)
  | [] => none
  | c :: cs =>
    if c = sep then some ([], cs)
    else
      match splitFirst sep cs with
      | none => none
      | some (l, r) => some (c :: l, r)

/-- The `query` component of `urllib.parse.urlparse`: the fragment is cut at
the first `#`, then the query is everything after the first `?` of the rest
(empty when there is no `?`). -/
def urlparse_query (url : String) : String :=
  let noFrag : List Char :=
    match splitFirst '#' url.data with
    | none => url.data
    | some (l, _) => l
  match splitFirst '?' noFrag with
  | none => ""
  | some (_, q) => ⟨q⟩

/-- Python `str.split(sep)` on character lists: splitting the empty string
yields one empty field, and separators at either end yield empty fields. -/
def splitList (sep : Char) : List Char → List (List Char)
  | [] => [[]]
  | c :: cs =>
    if c = sep then [] :: splitList sep cs
    else
      match splitList sep cs with
      | [] => [[c]]
      | l :: ls => (c :: l) :: ls

/-- `urllib.parse.parse_qsl` with default arguments: fields are split on `&`,
empty fields, fields without `=`, and fields with an empty value are dropped
(`keep_blank_values=False`), names and values are `unquote_plus`-decoded. -/
def parse_qsl (qs : String) : List (String × String) :=
  (splitList '&' qs.data).filterMap (fun field =>
    if field = [] then none
    else
      match splitFirst '=' field with
      | none => none
      | some (n, v) =>
        if v = [] then none else some (unquote_plus ⟨n⟩, unquote_plus ⟨v⟩))

/-- `parse_qs(qs)[key]`: the ordered list of all values bound to `key`;
`none` models the `KeyError` raised when the key has no values. -/
def parse_qs_get (qs : String) (key : String) : Option (List String) :=
  match (parse_qsl qs).filterMap (fun kv => if kv.1 = key then some kv.2 else none) with
  | [] => none
  | vs => some vs

/-- A decoded JSON value, as returned by `Response.json()` of `requests`.
JSON numbers are restricted to integers, which covers every payload this
client touches. -/
inductive JsonVal where
  | null
  | bool (b : Bool)
  | num (n : Int)
  | str (s : String)
  | arr (xs : List JsonVal)
  | obj (kvs : List (String × JsonVal))

/-- The Python exceptions the client's code paths can raise. -/
inductive PyError where
  | valueError (msg : String)
  | assertionError
  | keyError (key : String)
  | typeError (msg : String)
  | jsonDecodeError
deriving DecidableEq

inductive HttpMethod where
  | get
  | post
deriving DecidableEq

/-- One outgoing HTTP request: method, url, form body, extra headers, the
cookies passed explicitly to the call, and the `allow_redirects` flag. -/
structure Request where
  method : HttpMethod
  url : String
  data_ : List (String × String)
  headers : List (String × String)
  cookies : List (String × String)
  allow_redirects : Bool

/-- One HTTP response: status code, headers, set-cookies, and the decoded
JSON body (`none` when the body is not valid JSON). -/
structure Response where
  status_code : Nat
  headers : List (String × String)
  cookies : List (String × String)
  body_json : Option JsonVal

/-- `requests.Response.json()`: the decoded body, or the decode error that a
malformed body raises. -/
def Response.json (r : Response) : Except PyError JsonVal :=
  match r.body_json with
  | none => Except.error PyError.jsonDecodeError
  | some j => Except.ok j

/-- `requests.Session`, reduced to its cookie jar (the only session state the
client observes). -/
structure Session where
  cookies : List (String × String)

/-- A freshly constructed `requests.Session()`. -/
def Session.new : Session := ⟨[]⟩

/-- The network environment: what the servers answer to each request. -/
def Transport : Type := Request → Response

/-- Issue one request through a session; the jar absorbs the response's
cookies, as a `requests` session does. -/
def session_request (s : Session) (t : Transport) (req : Request) :
    Response × Session :=
  (t req, ⟨s.cookies ++ (t req).cookies⟩)

/-- `str.lower` restricted to ASCII case mapping, which covers every header
name in scope. -/
def str_toLower (s : String) : String := ⟨s.data.map Char.toLower⟩

/-- Case-insensitive lookup `headers[key]` on a `requests` header dict;
`none` models the `KeyError` of a missing header. -/
def headers_get (hs : List (String × String)) (key : String) : Option String :=
  match hs.find? (fun kv => str_toLower kv.1 == str_toLower key) with
  | none => none
  | some kv => some kv.2

/-- Subscripting `j[key]` on a decoded JSON value: `KeyError` on a missing
object key, `TypeError` on a non-object value. -/
def json_getitem (j : JsonVal) (key : String) : Except PyError JsonVal :=
  match j with
  | JsonVal.obj kvs =>
    match kvs.find? (fun kv => kv.1 == key) with
    | some kv => Except.ok kv.2
    | none => Except.error (PyError.keyError key)
  | _ => Except.error (PyError.typeError "subscript with a string on a non-object JSON value")

/-- The ASCII apostrophe, as a one-character string. -/
def sq : String := String.singleton (Char.ofNat 39)

mutual

/-- Python `repr` of a decoded JSON value (string escaping inside quoted
strings is omitted; no payload in scope needs it). -/
def pyReprJson : JsonVal → String
  | JsonVal.null => "None"
  | JsonVal.bool true => "True"
  | JsonVal.bool false => "False"
  | JsonVal.num n => toString n
  | JsonVal.str s => sq ++ s ++ sq
  | JsonVal.arr xs => "[" ++ pyReprJsonList xs ++ "]"
  | JsonVal.obj kvs => "\x7b" ++ pyReprJsonPairs kvs ++ "\x7d"

/-- Comma-separated `repr`s of the elements of a JSON array. -/
def pyReprJsonList : List JsonVal → String
  | [] => ""
  | [x] => pyReprJson x
  | x :: xs => pyReprJson x ++ ", " ++ pyReprJsonList xs

/-- Comma-separated `repr`s of the items of a JSON object. -/
def pyReprJsonPairs : List (String × JsonVal) → String
  | [] => ""
  | [kv] => sq ++ kv.1 ++ sq ++ ": " ++ pyReprJson kv.2
  | kv :: kvs => sq ++ kv.1 ++ sq ++ ": " ++ pyReprJson kv.2 ++ ", " ++ pyReprJsonPairs kvs

end

/-- Python `str` of a decoded JSON value: strings pass through, everything
else renders as its `repr`. -/
def pyStrJson : JsonVal → String
  | JsonVal.str s => s
  | j => pyReprJson j

/-- Python `str` applied to an optional value: `str(None)` is `"None"`. -/
def pyStrOptJson : Option JsonVal → String
  | none => "None"
  | some j => pyStrJson j

def REDIRECT_URI : String :=
  "ru.hse.pf://auth.hse.ru/adfs/oauth2/android/ru.hse.pf/callback/"

def BASE_URL_AUTHORIZE : String := "https://auth.hse.ru/adfs/oauth2/authorize/"

def BASE_URL_TOKEN : String := "https://auth.hse.ru/adfs/oauth2/token/"

def BASE_URL_SEARCH : String := "https://api.hseapp.ru/v2/dump/search/"

def SEARCH_SCOPES : List String :=
  ["student", "staff", "external_staff", "auditorium", "group", "course", "service"]

def DEFAULT_SEARCH_SCOPE : String := "all"

def DEFAULT_SEARCH_COUNT : Int := 5

def BASE_URL_EMAIL_SEARCH : String := "https://api.hseapp.ru/v2/dump/email/{email}"

/-- `BASE_URL_EMAIL_SEARCH.format(email=email)`. -/
def email_search_url (email : String) : String :=
  "https://api.hseapp.ru/v2/dump/email/" ++ email

/-- Message of the `ValueError` raised on a non-302 step-1 response. -/
def bad_status_message (status : Nat) : String :=
  "Bad status code for post on auth url: " ++ toString status ++
    ". May be your credentials or client_id is incorrect?"

/-- Message of the `ValueError` raised by `get_request` without a session. -/
def no_session_message : String :=
  "No opened session found! Use HseAppApi.auth() first."

/-- Message of the `ValueError` raised by `get_request` on a non-200 response. -/
def bad_code_message (status : Nat) : String :=
  "Error: expected code 200, got " ++ toString status

/-- Python `repr` of a list of strings, as `str.format` renders it inside the
scope error message. -/
def pyReprStrList (xs : List String) : String :=
  "[" ++ String.intercalate ", " (xs.map (fun x => sq ++ x ++ sq)) ++ "]"

/-- Message of the `ValueError` raised by `search` on an unknown scope. -/
def invalid_type_message (ty : String) : String :=
  "type must be one of " ++ pyReprStrList SEARCH_SCOPES ++ ", got \"" ++ ty ++ "\""

/-- Query parameters of the step-1 authorize POST. -/
def query_params_authorize_pos (client_id : String) : List (String × String) :=
  [("client_id", client_id), ("redirect_uri", REDIRECT_URI), ("response_type", "code")]

/-- URL of the step-1 authorize POST. -/
def url_auth_post (client_id : String) : String :=
  combine_base_url_with_params BASE_URL_AUTHORIZE (some (query_params_authorize_pos client_id))

/-- The step-1 authorize POST request, redirects disabled. -/
def authorize_request (username password client_id : String) : Request where
  method := HttpMethod.post
  url := url_auth_post client_id
  data_ := [("UserName", username), ("Password", password),
            ("AuthMethod", "FormsAuthentication")]
  headers := []
  cookies := []
  allow_redirects := false

/-- The step-2 GET on the step-1 `Location`, carrying the step-1 cookies,
redirects disabled. -/
def redirect_request (location : String) (cookies : List (String × String)) : Request where
  method := HttpMethod.get
  url := location
  data_ := []
  headers := []
  cookies := cookies
  allow_redirects := false

/-- The step-3 token POST.  `code` is the full `parse_qs` value list;
`requests` expands a list-valued form field into one pair per element, in
place, keeping dict order for the remaining fields. -/
def token_request (code : List String) (client_id : String) : Request where
  method := HttpMethod.post
  url := BASE_URL_TOKEN
  data_ := code.map (fun c => ("code", c)) ++
    [("client_id", client_id), ("redirect_uri", REDIRECT_URI),
     ("grant_type", "authorization_code")]
  headers := []
  cookies := []
  allow_redirects := true

/-- `HseAppApi.get_bearer_token`: the three-step manual redirect walk.  The
result is the handshake outcome (the decoded `access_token` JSON value on
success, the raised Python exception otherwise), the final session state, and
the ordered trace of issued requests. -/
def get_bearer_token (username password client_id : String)
    (session : Option Session) (t : Transport) :
    Except PyError JsonVal × Session × List Request :=
  let s0 :=
    match session with
    | none => Session.new
    | some s => s
  let req1 := authorize_request username password client_id
  let p1 := session_request s0 t req1
  if p1.1.status_code ≠ 302 then
    (Except.error (PyError.valueError (bad_status_message p1.1.status_code)), p1.2, [req1])
  else
    match headers_get p1.1.headers "Location" with
    | none => (Except.error (PyError.keyError "Location"), p1.2, [req1])
    | some url_auth_get =>
      let req2 := redirect_request url_auth_get p1.1.cookies
      let p2 := session_request p1.2 t req2
      if p2.1.status_code ≠ 302 then
        (Except.error PyError.assertionError, p2.2, [req1, req2])
      else
        match headers_get p2.1.headers "Location" with
        | none => (Except.error (PyError.keyError "Location"), p2.2, [req1, req2])
        | some location2 =>
          match parse_qs_get (urlparse_query location2) "code" with
          | none => (Except.error (PyError.keyError "code"), p2.2, [req1, req2])
          | some code =>
            let req3 := token_request code client_id
            let p3 := session_request p2.2 t req3
            match p3.1.json with
            | Except.error e => (Except.error e, p3.2, [req1, req2, req3])
            | Except.ok j =>
              match json_getitem j "access_token" with
              | Except.error e => (Except.error e, p3.2, [req1, req2, req3])
              | Except.ok tok => (Except.ok tok, p3.2, [req1, req2, req3])

/-- The `HseAppApi` client state: immutable credentials, the optional bearer
token (the decoded `access_token` value), and the optional session. -/
structure HseAppApi where
  username : String
  password : String
  client_id : String
  token : Option JsonVal
  session : Option Session

/-- `HseAppApi.__init__`: unauthenticated client. -/
def HseAppApi.init (username password client_id : String) : HseAppApi :=
  ⟨username, password, client_id, none, none⟩

/-- `HseAppApi.auth`: closes any previous session (a no-op on the model
state), installs a fresh session, and runs the handshake through it.  On a
raised handshake error the token field is left untouched while the fresh
session stays installed, exactly as the Python assignment order has it. -/
def HseAppApi.auth (api : HseAppApi) (t : Transport) :
    Except PyError Unit × HseAppApi × List Request :=
  let r := get_bearer_token api.username api.password api.client_id (some Session.new) t
  match r.1 with
  | Except.error e => (Except.error e, { api with session := some r.2.1 }, r.2.2)
  | Except.ok tok =>
    (Except.ok (), { api with session := some r.2.1, token := some tok }, r.2.2)

/-- `HseAppApi.has_session`. -/
def HseAppApi.has_session (api : HseAppApi) : Bool := api.session.isSome

/-- `HseAppApi.get_api_headers`: the authorization value is the Python format
`"Bearer {token}"`, which renders a `None` token as the literal `Bearer None`. -/
def HseAppApi.get_api_headers (api : HseAppApi) : List (String × String) :=
  [("accept-encoding", "gzip"),
   ("accept-language", "ru-RU"),
   ("authorization", "Bearer " ++ pyStrOptJson api.token),
   ("user-agent", "HSE App X/1.18.1; release (SM-A515F; Android/11; ru_RU; 1080x2400)")]

/-- The GET request that `get_request` issues once its session check passed. -/
def api_get_request (api : HseAppApi) (base_url : String)
    (params : Option (List (String × String))) : Request where
  method := HttpMethod.get
  url := combine_base_url_with_params base_url params
  data_ := []
  headers := api.get_api_headers
  cookies := []
  allow_redirects := true

/-- `HseAppApi.get_request`: rejects session-less clients before any request,
otherwise issues the authenticated GET, fails on a non-200 status, and decodes
the JSON body. -/
def HseAppApi.get_request (api : HseAppApi) (t : Transport) (base_url : String)
    (params : Option (List (String × String))) :
    Except PyError JsonVal × HseAppApi × List Request :=
  match api.session with
  | none => (Except.error (PyError.valueError no_session_message), api, [])
  | some s =>
    let req := api_get_request api base_url params
    let p := session_request s t req
    let api2 := { api with session := some p.2 }
    if p.1.status_code ≠ 200 then
      (Except.error (PyError.valueError (bad_code_message p.1.status_code)), api2, [req])
    else
      match p.1.json with
      | Except.error e => (Except.error e, api2, [req])
      | Except.ok j => (Except.ok j, api2, [req])

/-- `HseAppApi.search`: an unset scope serializes as the comma-joined scope
list, a known scope passes through, and an unknown scope raises before
`get_request` runs.  The integer `count` is stringified where Python's
`urlencode` would apply `str`. -/
def HseAppApi.search (api : HseAppApi) (t : Transport) (query : String)
    (type_ : Option String) (count : Int) :
    Except PyError JsonVal × HseAppApi × List Request :=
  match type_ with
  | none =>
    api.get_request t BASE_URL_SEARCH
      (some [("q", query), ("type", String.intercalate "," SEARCH_SCOPES),
             ("count", toString count)])
  | some ty =>
    if SEARCH_SCOPES.contains ty then
      api.get_request t BASE_URL_SEARCH
        (some [("q", query), ("type", ty), ("count", toString count)])
    else
      (Except.error (PyError.valueError (invalid_type_message ty)), api, [])

/-- `HseAppApi.search_by_email`: the wrapped GET on the email template URL,
with no extra parameters. -/
def HseAppApi.search_by_email (api : HseAppApi) (t : Transport) (email : String) :
    Except PyError JsonVal × HseAppApi × List Request :=
  api.get_request t (email_search_url email) none

/-- A freshly constructed, unauthenticated client. -/
def apiFresh : HseAppApi := HseAppApi.init "user" "pass" "clientid"

/-- A client that completed authentication: session installed, token set. -/
def apiAuthed : HseAppApi :=
  { apiFresh with session := some Session.new, token := some (JsonVal.str "tok123") }

/-- A client holding a session but no token — the state a failed `auth()`
leaves behind. -/
def apiHalf : HseAppApi := { apiFresh with session := some Session.new }

/-- A transport answering every request with a 200 status and an empty JSON
array body. -/
def tOk200 : Transport := fun _ => ⟨200, [], [], some (JsonVal.arr [])⟩

/-- A transport answering every request with a 200 status and a non-JSON body;
in particular the handshake's step 1 sees a non-302 status. -/
def tFail : Transport := fun _ => ⟨200, [], [], none⟩

/-- A transport answering every request with a 500 status. -/
def t500 : Transport := fun _ => ⟨500, [], [], some (JsonVal.arr [])⟩

/-- The data of a concatenation is the concatenation of the data. -/
theorem string_data_append (a b : String) : (a ++ b).data = a.data ++ b.data := rfl

/-- Every character's code point is below the Unicode bound. -/
theorem char_toNat_lt (c : Char) : c.toNat < 1114112 := by
  rcases c with ⟨v, hv⟩
  rcases hv with h | ⟨h1, h2⟩ <;> simp [Char.toNat] <;> omega

/-- Every UTF-8 byte is below 256. -/
theorem utf8Bytes_lt (c : Char) : ∀ b ∈ utf8Bytes c, b < 256 := by
  have hc := char_toNat_lt c
  intro b hb
  simp only [utf8Bytes] at hb
  split at hb
  · simp at hb; omega
  · split at hb
    · simp at hb; rcases hb with rfl | rfl <;> omega
    · split at hb
      · simp at hb; rcases hb with rfl | rfl | rfl <;> omega
      · simp at hb; rcases hb with rfl | rfl | rfl | rfl <;> omega

/-- A hexadecimal digit character is never a question mark. -/
theorem hexDigitUpper_ne_qmark (n : Nat) (h : n < 16) : hexDigitUpper n ≠ '?' := by
  interval_cases n <;> decide

/-- The percent escape of a byte contains no question mark. -/
theorem percentEncode_count (b : Nat) (h : b < 256) :
    (percentEncodeByteChars b).count '?' = 0 := by
  have h1 : hexDigitUpper (b / 16) ≠ '?' := hexDigitUpper_ne_qmark _ (by omega)
  have h2 : hexDigitUpper (b % 16) ≠ '?' := hexDigitUpper_ne_qmark _ (by omega)
  simp [percentEncodeByteChars, List.count_cons, h1, h2]

/-- The percent escapes of a list of bytes contain no question mark. -/
theorem listFlat_percent_count (bs : List Nat) (h : ∀ b ∈ bs, b < 256) :
    (listFlat percentEncodeByteChars bs).count '?' = 0 := by
  induction bs with
  | nil => rfl
  | cons b rest ih =>
    simp only [listFlat, List.count_append]
    rw [percentEncode_count b (h b (by simp)), ih (fun x hx => h x (by simp [hx]))]

/-- The quoted form of one character contains no question mark. -/
theorem quote_char_count (c : Char) : (quote_char_chars c).count '?' = 0 := by
  unfold quote_char_chars
  split
  · rename_i h
    have hc : c ≠ '?' := by
      intro he
      rw [he] at h
      exact absurd h (by decide)
    simp [List.count_cons, hc]
  · exact listFlat_percent_count _ (utf8Bytes_lt c)

/-- The `quote_plus` encoding of any character list contains no question mark. -/
theorem quote_plus_count (cs : List Char) : (quote_plus_chars cs).count '?' = 0 := by
  induction cs with
  | nil => rfl
  | cons c rest ih =>
    simp only [quote_plus_chars, listFlat, List.count_append] at ih ⊢
    rw [ih, Nat.add_zero]
    split
    · decide
    · exact quote_char_count c

/-- The `urlencode` output contains no question mark. -/
theorem urlencode_count (ps : List (String × String)) :
    (urlencode_chars ps).count '?' = 0 := by
  induction ps with
  | nil => rfl
  | cons kv rest ih =>
    cases rest with
    | nil =>
      simp [urlencode_chars, List.count_append, List.count_cons, quote_plus_count]
    | cons kv2 rest2 =>
      simp [urlencode_chars, List.count_append, List.count_cons, quote_plus_count, ih]

/-- The non-200 error message of `get_request` never coincides with its
no-session error message. -/
theorem bad_code_message_ne (n : Nat) : bad_code_message n ≠ no_session_message := by
  intro h
  have h2 : (bad_code_message n).data.head? = some 'E' := rfl
  rw [h] at h2
  exact absurd h2 (by decide)

/-- `get_request` on a session-less client: rejected before any network call. -/
theorem get_request_no_session (api : HseAppApi) (t : Transport) (u : String)
    (ps : Option (List (String × String))) (h : api.session = none) :
    api.get_request t u ps = (Except.error (PyError.valueError no_session_message), api, []) := by
  simp only [HseAppApi.get_request, h]

/-- `get_request` on a client with a session issues exactly the one GET built
by `api_get_request`. -/
theorem get_request_trace (api : HseAppApi) (s : Session) (t : Transport) (u : String)
    (ps : Option (List (String × String))) (h : api.session = some s) :
    (api.get_request t u ps).2.2 = [api_get_request api u ps] := by
  simp only [HseAppApi.get_request, session_request, Response.json, h]
  by_cases hc : (t (api_get_request api u ps)).status_code ≠ 200
  · rw [if_pos hc]
  · rw [if_neg hc]
    cases hb : (t (api_get_request api u ps)).body_json <;> rfl

/-- C7: `combine_base_url_with_params` leaves the url unchanged for absent
parameters and otherwise appends `?` and the percent-encoded `key=value`
pairs joined with `&`, in the order given. -/
theorem C7_combine_url :
    (∀ url : String, combine_base_url_with_params url none = url) ∧
    (∀ (url : String) (ps : List (String × String)),
      combine_base_url_with_params url (some ps) = url ++ "?" ++ urlencode ps) ∧
    urlencode [] = "" ∧
    (∀ kv : String × String, urlencode [kv] = quote_plus kv.1 ++ "=" ++ quote_plus kv.2) ∧
    (∀ (kv kv2 : String × String) (rest : List (String × String)),
      urlencode (kv :: kv2 :: rest) =
        quote_plus kv.1 ++ "=" ++ quote_plus kv.2 ++ "&" ++ urlencode (kv2 :: rest)) ∧
    combine_base_url_with_params "url" (some [("a", "1"), ("b", "2")]) = "url?a=1&b=2" ∧
    combine_base_url_with_params "url" (some [("a b", "1+2")]) = "url?a+b=1%2B2" := by
  refine ⟨fun url => rfl, fun url ps => rfl, rfl, fun kv => ?_, fun kv kv2 rest => ?_,
    by decide, by decide⟩
  · apply String.ext
    simp [urlencode, urlencode_chars, quote_plus, string_data_append]
  · apply String.ext
    simp [urlencode, urlencode_chars, quote_plus, string_data_append]

/-- C9: for a non-`None` parameter dict the `?` separator is appended
unconditionally — the result always holds exactly one more `?` than the given
url, so a url that already carries a query string ends up with two. -/
theorem C9_unconditional_question_mark :
    (∀ (url : String) (ps : List (String × String)),
      (combine_base_url_with_params url (some ps)).data.count '?' =
        url.data.count '?' + 1) ∧
    (combine_base_url_with_params "https://h/p?a=1" (some [("b", "2")])).data.count '?' = 2 := by
  constructor
  · intro url ps
    show ((url ++ "?" ++ urlencode ps)).data.count '?' = _
    rw [string_data_append, string_data_append, List.count_append, List.count_append]
    have h2 : (urlencode ps).data.count '?' = 0 := urlencode_count ps
    have h1 : List.count '?' ("?" : String).data = 1 := rfl
    omega
  · decide

/-- C5: `search` with a scope outside the seven enumerated scopes fails with
the invalid-argument `ValueError` and issues no request at all. -/
theorem C5_invalid_scope (api : HseAppApi) (t : Transport) (q ty : String) (c : Int)
    (h : ty ∉ SEARCH_SCOPES) :
    api.search t q (some ty) c =
      (Except.error (PyError.valueError (invalid_type_message ty)), api, []) := by
  simp [HseAppApi.search, h]

/-- C5 witness at the spec's own example scope. -/
theorem C5_invalid_scope_witness :
    apiAuthed.search tOk200 "Ivanov" (some "nonexistent_scope") 5 =
      (Except.error (PyError.valueError (invalid_type_message "nonexistent_scope")),
        apiAuthed, []) :=
  C5_invalid_scope apiAuthed tOk200 "Ivanov" "nonexistent_scope" 5 (by decide)

/-- C8: a non-200 response to an authenticated GET makes `get_request` fail
with the `ValueError` carrying the observed status (the spec's
`UpstreamError`); being an error, no parsed JSON result is returned. -/
theorem C8_upstream_error (api : HseAppApi) (s : Session) (t : Transport) (u : String)
    (ps : Option (List (String × String))) (hs : api.session = some s)
    (hst : (t (api_get_request api u ps)).status_code ≠ 200) :
    (api.get_request t u ps).1 =
      Except.error (PyError.valueError
        (bad_code_message (t (api_get_request api u ps)).status_code)) := by
  simp only [HseAppApi.get_request, session_request, hs]
  rw [if_pos hst]

/-- C8 witness: a 500 from the search endpoint yields the status-500 error. -/
theorem C8_upstream_error_witness :
    (apiAuthed.get_request t500 BASE_URL_SEARCH (some [("q", "x")])).1 =
      Except.error (PyError.valueError (bad_code_message 500)) :=
  C8_upstream_error apiAuthed Session.new t500 BASE_URL_SEARCH (some [("q", "x")])
    rfl (by decide)

/-- C10: `get_request` raises its not-authenticated error exactly when the
session is `None`; the token is never consulted, so a client with a session
but no token issues the GET with the literal header `authorization: Bearer
None`. -/
theorem C10_session_only_check (api : HseAppApi) (t : Transport) (u : String)
    (ps : Option (List (String × String))) :
    ((api.get_request t u ps).1 = Except.error (PyError.valueError no_session_message) ↔
      api.session = none) ∧
    (api.session = none → (api.get_request t u ps).2.2 = []) ∧
    (∀ s, api.session = some s → api.token = none →
      (api.get_request t u ps).2.2 = [api_get_request api u ps] ∧
      (api_get_request api u ps).headers.contains ("authorization", "Bearer None") = true) := by
  refine ⟨⟨?_, ?_⟩, ?_, ?_⟩
  · intro h
    cases hs : api.session with
    | none => rfl
    | some s =>
      exfalso
      simp only [HseAppApi.get_request, session_request, Response.json, hs] at h
      by_cases hc : (t (api_get_request api u ps)).status_code ≠ 200
      · rw [if_pos hc] at h
        simp only [Prod.fst, Except.error.injEq, PyError.valueError.injEq] at h
        exact bad_code_message_ne _ h
      · rw [if_neg hc] at h
        cases hb : (t (api_get_request api u ps)).body_json <;> rw [hb] at h <;> simp at h
  · intro h
    rw [get_request_no_session api t u ps h]
  · intro h
    rw [get_request_no_session api t u ps h]
  · intro s hs htok
    refine ⟨get_request_trace api s t u ps hs, ?_⟩
    simp only [api_get_request, HseAppApi.get_api_headers, htok, pyStrOptJson]
    decide

/-- A non-302 authorize response aborts the handshake with the
status-carrying `ValueError` after exactly one request. -/
theorem gbt_step1_fail (u p cid : String) (so : Option Session) (t : Transport)
    (h : (t (authorize_request u p cid)).status_code ≠ 302) :
    (get_bearer_token u p cid so t).1 =
      Except.error (PyError.valueError
        (bad_status_message (t (authorize_request u p cid)).status_code)) ∧
    (get_bearer_token u p cid so t).2.2 = [authorize_request u p cid] := by
  constructor <;>
    · simp only [get_bearer_token, session_request]
      rw [if_pos h]

/-- A non-302 step-2 response aborts the handshake with the bare assertion
error after exactly two requests. -/
theorem gbt_step2_fail (u p cid : String) (so : Option Session) (t : Transport) (loc1 : String)
    (h1 : (t (authorize_request u p cid)).status_code = 302)
    (hL1 : headers_get (t (authorize_request u p cid)).headers "Location" = some loc1)
    (h2 : (t (redirect_request loc1 (t (authorize_request u p cid)).cookies)).status_code ≠ 302) :
    (get_bearer_token u p cid so t).1 = Except.error PyError.assertionError ∧
    (get_bearer_token u p cid so t).2.2 =
      [authorize_request u p cid,
       redirect_request loc1 (t (authorize_request u p cid)).cookies] := by
  constructor <;> simp [get_bearer_token, session_request, h1, hL1, h2]

/-- The step-3 token POST differs from the step-1 authorize POST: their form
bodies start with different field names. -/
theorem token_request_ne_authorize (code : List String) (cid u p cid2 : String) :
    token_request code cid ≠ authorize_request u p cid2 := by
  intro h
  have hd := congrArg (fun r => (r.data_.map Prod.fst).head?) h
  cases code with
  | nil =>
    have h2 : (some "client_id" : Option String) = some "UserName" := hd
    exact absurd h2 (by decide)
  | cons c cs =>
    have h2 : (some "code" : Option String) = some "UserName" := hd
    exact absurd h2 (by decide)

/-- The step-3 token POST differs from the step-2 redirect GET: the methods
differ. -/
theorem token_request_ne_redirect (code : List String) (cid loc : String)
    (cookies : List (String × String)) :
    token_request code cid ≠ redirect_request loc cookies := by
  intro h
  have hm := congrArg Request.method h
  exact HttpMethod.noConfusion (show HttpMethod.post = HttpMethod.get from hm)

/-- C3: when the step-2 redirect `Location` has no `code` query parameter the
handshake fails with the `KeyError` on `"code"` (the code's realization of the
spec's `MalformedResponse`) and never proceeds to step 3: the trace stops at
the two redirect-walk requests and contains no token POST. -/
theorem C3_missing_code (u p cid : String) (so : Option Session) (t : Transport)
    (loc1 loc2 : String)
    (h1 : (t (authorize_request u p cid)).status_code = 302)
    (hL1 : headers_get (t (authorize_request u p cid)).headers "Location" = some loc1)
    (h2 : (t (redirect_request loc1 (t (authorize_request u p cid)).cookies)).status_code = 302)
    (hL2 : headers_get
      (t (redirect_request loc1 (t (authorize_request u p cid)).cookies)).headers
        "Location" = some loc2)
    (hcode : parse_qs_get (urlparse_query loc2) "code" = none) :
    (get_bearer_token u p cid so t).1 = Except.error (PyError.keyError "code") ∧
    (get_bearer_token u p cid so t).2.2 =
      [authorize_request u p cid,
       redirect_request loc1 (t (authorize_request u p cid)).cookies] ∧
    ∀ code, token_request code cid ∉ (get_bearer_token u p cid so t).2.2 := by
  have htrace : (get_bearer_token u p cid so t).2.2 =
      [authorize_request u p cid,
       redirect_request loc1 (t (authorize_request u p cid)).cookies] := by
    simp [get_bearer_token, session_request, h1, hL1, h2, hL2, hcode]
  refine ⟨?_, htrace, ?_⟩
  · simp [get_bearer_token, session_request, h1, hL1, h2, hL2, hcode]
  · intro code hmem
    rw [htrace] at hmem
    simp only [List.mem_cons, List.not_mem_nil, or_false] at hmem
    rcases hmem with heq | heq
    · exact token_request_ne_authorize code cid u p cid heq
    · exact token_request_ne_redirect code cid _ _ heq

/-- A transport driving the handshake to step 2 and answering the redirect GET
with a `Location` whose query string has no `code` parameter. -/
def tNoCode : Transport := fun r =>
  if r.method == HttpMethod.post then
    ⟨302, [("Location", "https://auth.hse.ru/adfs/oauth2/authorize/?client-request-id=42")],
      [("sid", "abc")], none⟩
  else
    ⟨302, [("Location",
      "ru.hse.pf://auth.hse.ru/adfs/oauth2/android/ru.hse.pf/callback/?error=denied")],
      [], none⟩

/-- C3 witness: the theorem applied at a concrete transport. -/
theorem C3_missing_code_witness :
    (get_bearer_token "u" "p" "c" none tNoCode).1 =
      Except.error (PyError.keyError "code") ∧
    (get_bearer_token "u" "p" "c" none tNoCode).2.2.length = 2 := by
  have h := C3_missing_code "u" "p" "c" none tNoCode
    "https://auth.hse.ru/adfs/oauth2/authorize/?client-request-id=42"
    "ru.hse.pf://auth.hse.ru/adfs/oauth2/android/ru.hse.pf/callback/?error=denied"
    (by decide) (by decide) (by decide) (by decide) (by decide)
  exact ⟨h.1, by rw [h.2.1]; rfl⟩

/-- A transport whose step-1 POST redirects and whose step-2 GET returns a
non-302 status. -/
def tStep2Bad : Transport := fun r =>
  if r.method == HttpMethod.post then
    ⟨302, [("Location", "https://auth.hse.ru/adfs/oauth2/authorize/?client-request-id=7")],
      [("sid", "abc")], none⟩
  else ⟨200, [], [], none⟩

/-- C4 amended: a non-302 status at step 1 or step 2 aborts the handshake at
once with no further network calls, but the two steps do not fail alike:
step 1 raises a `ValueError` whose message names the observed (not the
expected) status, while step 2 fails through a bare assertion error that
carries no context at all. -/
theorem C4_bad_status (u p cid : String) (so : Option Session) (t : Transport) (loc1 : String) :
    ((t (authorize_request u p cid)).status_code ≠ 302 →
      (get_bearer_token u p cid so t).1 =
        Except.error (PyError.valueError
          (bad_status_message (t (authorize_request u p cid)).status_code)) ∧
      (get_bearer_token u p cid so t).2.2 = [authorize_request u p cid]) ∧
    ((t (authorize_request u p cid)).status_code = 302 →
      headers_get (t (authorize_request u p cid)).headers "Location" = some loc1 →
      (t (redirect_request loc1 (t (authorize_request u p cid)).cookies)).status_code ≠ 302 →
      (get_bearer_token u p cid so t).1 = Except.error PyError.assertionError ∧
      (get_bearer_token u p cid so t).2.2 =
        [authorize_request u p cid,
         redirect_request loc1 (t (authorize_request u p cid)).cookies]) :=
  ⟨fun h => gbt_step1_fail u p cid so t h,
   fun h1 hL1 h2 => gbt_step2_fail u p cid so t loc1 h1 hL1 h2⟩

/-- C4 witness: the amended statement at two concrete transports. -/
theorem C4_bad_status_witness :
    (get_bearer_token "u" "p" "c" none tFail).2.2 = [authorize_request "u" "p" "c"] ∧
    (get_bearer_token "u" "p" "c" none tStep2Bad).2.2 =
      [authorize_request "u" "p" "c",
       redirect_request "https://auth.hse.ru/adfs/oauth2/authorize/?client-request-id=7"
         [("sid", "abc")]] := by
  have hA := (C4_bad_status "u" "p" "c" none tFail "unused").1 (by decide)
  have hB := (C4_bad_status "u" "p" "c" none tStep2Bad
    "https://auth.hse.ru/adfs/oauth2/authorize/?client-request-id=7").2
    (by decide) (by decide) (by decide)
  exact ⟨hA.2, hB.2⟩

/-- C4 counterexample: the two handshake steps do not surface one error kind
with expected-versus-actual context — step 1 raises a `ValueError` naming only
the observed status, step 2 fails through a bare assertion error carrying no
status, step, or expected-versus-actual information at all. -/
theorem C4_counterexample :
    (get_bearer_token "u" "p" "c" none tFail).1 =
      Except.error (PyError.valueError (bad_status_message 200)) ∧
    (get_bearer_token "u" "p" "c" none tStep2Bad).1 =
      Except.error PyError.assertionError ∧
    PyError.assertionError ≠ PyError.valueError (bad_status_message 200) := by
  refine ⟨?_, ?_, by decide⟩
  · exact (gbt_step1_fail "u" "p" "c" none tFail (by decide)).1
  · exact (gbt_step2_fail "u" "p" "c" none tStep2Bad
      "https://auth.hse.ru/adfs/oauth2/authorize/?client-request-id=7"
      (by decide) (by decide) (by decide)).1

/-- C6: `search` with an unset scope sends exactly the parameters `q`, `type`
equal to the comma-joined list of all seven enumerated scopes, and `count`. -/
theorem C6_default_scope (api : HseAppApi) (s : Session) (t : Transport) (q : String) (c : Int)
    (hs : api.session = some s) :
    String.intercalate "," SEARCH_SCOPES =
      "student,staff,external_staff,auditorium,group,course,service" ∧
    (api.search t q none c).2.2 =
      [api_get_request api BASE_URL_SEARCH
        (some [("q", q),
               ("type", "student,staff,external_staff,auditorium,group,course,service"),
               ("count", toString c)])] := by
  have h := get_request_trace api s t BASE_URL_SEARCH
    (some [("q", q), ("type", String.intercalate "," SEARCH_SCOPES),
           ("count", toString c)]) hs
  exact ⟨by decide, h⟩

/-- C6 witness: the spec's own end-to-end search example. -/
theorem C6_default_scope_witness :
    (apiAuthed.search tOk200 "Ivanov Ivan" none 1).2.2 =
      [api_get_request apiAuthed BASE_URL_SEARCH
        (some [("q", "Ivanov Ivan"),
               ("type", "student,staff,external_staff,auditorium,group,course,service"),
               ("count", "1")])] :=
  (C6_default_scope apiAuthed Session.new tOk200 "Ivanov Ivan" 1 rfl).2

/-- `search` with unset scope on a client with a session issues exactly one
request. -/
theorem search_default_trace_len (api : HseAppApi) (s : Session) (t : Transport)
    (q : String) (c : Int) (hs : api.session = some s) :
    (api.search t q none c).2.2.length = 1 := by
  simp only [HseAppApi.search]
  rw [get_request_trace api s t BASE_URL_SEARCH
    (some [("q", q), ("type", String.intercalate "," SEARCH_SCOPES),
           ("count", toString c)]) hs]
  rfl

/-- `search_by_email` on a client with a session issues exactly one request. -/
theorem search_by_email_trace_len (api : HseAppApi) (s : Session) (t : Transport)
    (email : String) (hs : api.session = some s) :
    (api.search_by_email t email).2.2.length = 1 := by
  simp only [HseAppApi.search_by_email]
  rw [get_request_trace api s t (email_search_url email) none hs]
  rfl

/-- C1 amended: a failed `auth()` retains no token — the token field is exactly
what it was before, `None` when no prior auth succeeded — but it does install a
fresh open session, so subsequent search and search-by-email calls are not
rejected as unauthenticated: each issues its network GET. -/
theorem C1_failed_auth (api : HseAppApi) (t : Transport) (e : PyError)
    (hfail : (api.auth t).1 = Except.error e) :
    ((api.auth t).2.1).token = api.token ∧
    ((api.auth t).2.1).session.isSome = true ∧
    (∀ t2 q c, (((api.auth t).2.1).search t2 q none c).2.2.length = 1) ∧
    (∀ t2 email, (((api.auth t).2.1).search_by_email t2 email).2.2.length = 1) := by
  have hsess : ((api.auth t).2.1).session =
      some (get_bearer_token api.username api.password api.client_id (some Session.new) t).2.1 := by
    simp only [HseAppApi.auth]
    cases hg : (get_bearer_token api.username api.password api.client_id
      (some Session.new) t).1 <;> simp [hg]
  have htok : ((api.auth t).2.1).token = api.token := by
    simp only [HseAppApi.auth] at hfail ⊢
    cases hg : (get_bearer_token api.username api.password api.client_id
      (some Session.new) t).1 with
    | error e2 => simp [hg]
    | ok tok =>
      rw [hg] at hfail
      simp at hfail
  refine ⟨htok, by rw [hsess]; rfl,
    fun t2 q c => search_default_trace_len _ _ t2 q c hsess,
    fun t2 email => search_by_email_trace_len _ _ t2 email hsess⟩

/-- C1 witness: the amended statement at the concrete failed handshake. -/
theorem C1_failed_auth_witness :
    ((apiFresh.auth tFail).2.1).token = apiFresh.token ∧
    ((apiFresh.auth tFail).2.1).session.isSome = true ∧
    (((apiFresh.auth tFail).2.1).search tOk200 "q" none 5).2.2.length = 1 ∧
    (((apiFresh.auth tFail).2.1).search_by_email tOk200 "a@edu.hse.ru").2.2.length = 1 := by
  have h := C1_failed_auth apiFresh tFail (PyError.valueError (bad_status_message 200)) rfl
  exact ⟨h.1, h.2.1, h.2.2.1 tOk200 "q" 5, h.2.2.2 tOk200 "a@edu.hse.ru"⟩

/-- C1 counterexample: on a fresh client whose handshake fails at step 1 the
failed `auth()` leaves no token, yet a subsequent search is not rejected as
unauthenticated — it performs a network request and succeeds against the
transport. -/
theorem C1_counterexample :
    (apiFresh.auth tFail).1 =
      Except.error (PyError.valueError (bad_status_message 200)) ∧
    ((apiFresh.auth tFail).2.1).token = none ∧
    (((apiFresh.auth tFail).2.1).search tOk200 "Ivanov" none 5).1 =
      Except.ok (JsonVal.arr []) ∧
    (((apiFresh.auth tFail).2.1).search tOk200 "Ivanov" none 5).2.2.length = 1 :=
  ⟨rfl, rfl, rfl, rfl⟩

/-- C2 amended: the not-authenticated rejection happens exactly for clients
whose session is `None` — in particular any client on which `auth()` was never
called: `search` under an unset or valid scope and `search_by_email` then fail
with the no-session `ValueError` and issue no network request.  The token
plays no part in the check. -/
theorem C2_no_session_rejected (api : HseAppApi) (t : Transport)
    (hs : api.session = none) (q : String) (ty : Option String) (c : Int) (email : String)
    (hty : ty = none ∨ ∃ sc, ty = some sc ∧ sc ∈ SEARCH_SCOPES) :
    api.search t q ty c = (Except.error (PyError.valueError no_session_message), api, []) ∧
    api.search_by_email t email =
      (Except.error (PyError.valueError no_session_message), api, []) := by
  constructor
  · rcases hty with rfl | ⟨sc, rfl, hmem⟩
    · simp only [HseAppApi.search]
      exact get_request_no_session api t _ _ hs
    · have hc : SEARCH_SCOPES.contains sc = true := by simpa using hmem
      simp only [HseAppApi.search, hc, if_true]
      exact get_request_no_session api t _ _ hs
  · exact get_request_no_session api t _ _ hs

/-- C2 witness: a fresh client is rejected with no network I/O. -/
theorem C2_no_session_rejected_witness :
    apiFresh.search tOk200 "q" none 5 =
      (Except.error (PyError.valueError no_session_message), apiFresh, []) ∧
    apiFresh.search_by_email tOk200 "x@edu.hse.ru" =
      (Except.error (PyError.valueError no_session_message), apiFresh, []) :=
  C2_no_session_rejected apiFresh tOk200 rfl "q" none 5 "x@edu.hse.ru" (Or.inl rfl)

/-- C2 counterexample: a client on which authentication was attempted but not
completed — the handshake failed, the token is still `None` — is not rejected:
its search performs network I/O instead of failing with the not-authenticated
error. -/
theorem C2_counterexample :
    ((apiFresh.auth tFail).2.1).token = none ∧
    (((apiFresh.auth tFail).2.1).search tOk200 "q" none 5).2.2.length = 1 ∧
    (((apiFresh.auth tFail).2.1).search tOk200 "q" none 5).1 ≠
      Except.error (PyError.valueError no_session_message) := by
  refine ⟨rfl, rfl, ?_⟩
  have h : (((apiFresh.auth tFail).2.1).search tOk200 "q" none 5).1 =
      Except.ok (JsonVal.arr []) := rfl
  rw [h]
  intro hcontra
  exact Except.noConfusion hcontra

/-- C10 witness: a fresh client is rejected with the no-session error; the
half-authenticated client issues the GET carrying `Bearer None`. -/
theorem C10_session_only_check_witness :
    (apiFresh.get_request tOk200 BASE_URL_SEARCH none).1 =
      Except.error (PyError.valueError no_session_message) ∧
    (apiHalf.get_request tOk200 BASE_URL_SEARCH none).2.2 =
      [api_get_request apiHalf BASE_URL_SEARCH none] ∧
    (api_get_request apiHalf BASE_URL_SEARCH none).headers.contains
      ("authorization", "Bearer None") = true := by
  refine ⟨(C10_session_only_check apiFresh tOk200 BASE_URL_SEARCH none).1.2 rfl, ?_, ?_⟩
  · exact ((C10_session_only_check apiHalf tOk200 BASE_URL_SEARCH none).2.2
      Session.new rfl rfl).1
  · exact ((C10_session_only_check apiHalf tOk200 BASE_URL_SEARCH none).2.2
      Session.new rfl rfl).2

end HseApp
